import Mathlib

set_option maxRecDepth 40000
set_option maxHeartbeats 1000000

/-!
Verification model of the RD03D Arduino library (src/RD03D.cpp, src/RD03D.h):
a byte-oriented parser for 30-byte radar frames (4-byte header `AA FF 03 00`,
three 8-byte target blocks, 2-byte tail `55 CC`) together with the per-target
decoder.

Modelling conventions:
* Bytes and machine integers are `Nat`; the `uint8_t` domain of incoming bytes
  is a precondition (values < 256) rather than a wrapping type, and the
  `uint8_t` reads of the frame buffer inside the decoder apply `% 256`
  explicitly.  `millis()` timestamps are `uint32_t`, modelled by `% 2^32`.
* The mutable `RD03D` object is a record threaded through explicit state
  passing; `millis()` is an explicit `now` argument.
* Invoking the registered frame callback is modelled by appending the
  `(targets, count)` argument pair to `callbackLog`.
* The `float` fields `distance` and `angle` (computed with `sqrtf`/`atan2f`)
  are modelled as exact real-valued functions `distanceR`/`angleR` of the
  decoded integer coordinates, which is what the code computes them from.
-/

/-- Parser states, from `RD03D_ParserState` in RD03D.h
(`RD03D_SYNC_HEADER`, `RD03D_READ_DATA`). -/
inductive RD03D_ParserState where
  | syncHeader
  | readData
deriving DecidableEq

/-- One tracked target, from `struct RD03D_Target` in RD03D.h.  The derived
`float` fields `distance` and `angle` are modelled separately as the
real-valued functions `distanceR` and `angleR` below. -/
structure RD03D_Target where
  x : Int
  y : Int
  speed : Int
  distanceRaw : Nat
  valid : Bool
deriving DecidableEq

/-- `RD03D_Target::clear()`: all fields zero / invalid. -/
def RD03D_Target.clear : RD03D_Target :=
  { x := 0, y := 0, speed := 0, distanceRaw := 0, valid := false }

/-- Frame header constant `AA FF 03 00` (`RD03D::FRAME_HEADER`). -/
def FRAME_HEADER : List Nat := [0xAA, 0xFF, 0x03, 0x00]

/-- Little-endian 16-bit read `data[i] | (data[i+1] << 8)` from `parseTarget`;
the `% 256` expresses that the two operands are `uint8_t` values. -/
def u16le (lo hi : Nat) : Nat := (lo % 256) ||| ((hi % 256) <<< 8)

/-- Sign-and-magnitude decode used for X and speed in `RD03D::parseTarget`:
magnitude is the low 15 bits, and the value is negated exactly when bit 15 is
clear. -/
def decodeSignMag (raw : Nat) : Int :=
  if raw &&& 0x8000 = 0 then -((raw &&& 0x7FFF : Nat) : Int)
  else ((raw &&& 0x7FFF : Nat) : Int)

/-- `RD03D::parseTarget` on one 8-byte slot `d0..d7`: extract the four
little-endian 16-bit fields, test validity (`raw_x != 0 || raw_y != 0`),
and decode X/speed as sign-magnitude, Y as offset-by-`0x8000`
(`(int16_t)(raw_y - 0x8000)`, which for `raw_y < 2^16` is exactly
`raw_y - 0x8000` over ℤ). -/
def parseTargetBytes (d0 d1 d2 d3 d4 d5 d6 d7 : Nat) : RD03D_Target :=
  let raw_x := u16le d0 d1
  let raw_y := u16le d2 d3
  let raw_speed := u16le d4 d5
  let raw_dist := u16le d6 d7
  if raw_x ≠ 0 ∨ raw_y ≠ 0 then
    { x := decodeSignMag raw_x
      y := (raw_y : Int) - 0x8000
      speed := decodeSignMag raw_speed
      distanceRaw := raw_dist
      valid := true }
  else
    RD03D_Target.clear

/-- `parseTarget(index, &_frameBuf[off])`: read the 8-byte slot starting at
`off` from the frame buffer. -/
def parseTargetAt (buf : List Nat) (off : Nat) : RD03D_Target :=
  parseTargetBytes (buf.getD off 0) (buf.getD (off + 1) 0) (buf.getD (off + 2) 0)
    (buf.getD (off + 3) 0) (buf.getD (off + 4) 0) (buf.getD (off + 5) 0)
    (buf.getD (off + 6) 0) (buf.getD (off + 7) 0)

/-- `RD03D::getTargetCount()`: number of targets whose `valid` flag is set. -/
def getTargetCount (ts : List RD03D_Target) : Nat := ts.countP (fun t => t.valid)

/-- The whole `RD03D` object state (fields of `class RD03D`, minus the raw
serial handle and callback pointer; callback invocations are recorded in
`callbackLog`). -/
structure RD03D where
  targets : List RD03D_Target
  frameBuf : List Nat
  frameIdx : Nat
  syncIdx : Nat
  parserState : RD03D_ParserState
  lastByteTime : Nat
  lastFrameTime : Nat
  timeoutMs : Nat
  frameCount : Nat
  errorCount : Nat
  callbackLog : List (List RD03D_Target × Nat)
deriving DecidableEq

namespace RD03D

/-- The constructor `RD03D::RD03D()`: sync-seeking state, indices zero,
default timeout 100 ms, cleared targets.  (The C++ code leaves `_frameBuf`
uninitialized; it is only ever read after being fully overwritten, so zeros
are an arbitrary faithful choice.) -/
def init : RD03D :=
  { targets := [RD03D_Target.clear, RD03D_Target.clear, RD03D_Target.clear]
    frameBuf := List.replicate 30 0
    frameIdx := 0
    syncIdx := 0
    parserState := .syncHeader
    lastByteTime := 0
    lastFrameTime := 0
    timeoutMs := 100
    frameCount := 0
    errorCount := 0
    callbackLog := [] }

/-- `RD03D::processFrame()`: bump the frame counter and timestamp, decode the
three 8-byte slots at offsets 4, 12, 20, and invoke the callback with the
target array and the valid count. -/
def processFrame (now : Nat) (s : RD03D) : RD03D :=
  let ts := [parseTargetAt s.frameBuf 4, parseTargetAt s.frameBuf 12,
             parseTargetAt s.frameBuf 20]
  { s with frameCount := s.frameCount + 1
           lastFrameTime := now % 4294967296
           targets := ts
           callbackLog := s.callbackLog ++ [(ts, getTargetCount ts)] }

/-- `RD03D::resetParser()`. -/
def resetParser (s : RD03D) : RD03D :=
  { s with parserState := .syncHeader, syncIdx := 0, frameIdx := 0 }

/-- `RD03D::processByte(b)`.  The two-state `switch` is written as an `if` on
the two-valued parser state (the C++ `default:` branch is unreachable).
Precondition from the `uint8_t` parameter type: `b < 256`. -/
def processByte (now : Nat) (s : RD03D) (b : Nat) : RD03D :=
  let s := { s with lastByteTime := now % 4294967296 }
  if s.parserState = .syncHeader then
    if b = FRAME_HEADER.getD s.syncIdx 0 then
      let s := { s with frameBuf := s.frameBuf.set s.syncIdx b
                        syncIdx := s.syncIdx + 1 }
      if 4 ≤ s.syncIdx then { s with parserState := .readData, frameIdx := 4 }
      else s
    else if b = FRAME_HEADER.getD 0 0 then
      { s with syncIdx := 1, frameBuf := s.frameBuf.set 0 b }
    else
      { s with syncIdx := 0 }
  else
    let s := { s with frameBuf := s.frameBuf.set s.frameIdx b
                      frameIdx := s.frameIdx + 1 }
    if 30 ≤ s.frameIdx then
      let s :=
        if s.frameBuf.getD 28 0 = 0x55 ∧ s.frameBuf.getD 29 0 = 0xCC then
          processFrame now s
        else
          { s with errorCount := s.errorCount + 1 }
      resetParser s
    else s

/-- Feeding a byte sequence one byte at a time (the read loop of
`RD03D::update()`), all at the same `millis()` reading `now`. -/
def processBytes (now : Nat) (s : RD03D) (bs : List Nat) : RD03D :=
  bs.foldl (processByte now) s

/-- The frame-timeout guard at the top of `RD03D::update()` (lines 72-78):
if the parser is mid-frame and more than `timeoutMs` has elapsed since the
last byte (`uint32_t` wrap-around subtraction), count an error and reset. -/
def updateTimeoutCheck (now : Nat) (s : RD03D) : RD03D :=
  if s.parserState ≠ .syncHeader ∧
      s.timeoutMs <
        (now % 4294967296 + 4294967296 - s.lastByteTime % 4294967296) % 4294967296 then
    resetParser { s with errorCount := s.errorCount + 1 }
  else s

end RD03D

/-- Exact real-valued counterpart of `atan2f(a, b)` (angle of the point with
abscissa `b` and ordinate `a`), following the C `atan2` specification. -/
noncomputable def atan2R (a b : ℝ) : ℝ :=
  if 0 < b then Real.arctan (a / b)
  else if b < 0 then
    (if 0 ≤ a then Real.arctan (a / b) + Real.pi else Real.arctan (a / b) - Real.pi)
  else if 0 < a then Real.pi / 2
  else if a < 0 then -(Real.pi / 2)
  else 0

/-- Derived distance field of `RD03D::parseTarget`:
`sqrtf(x_mm*x_mm + y_mm*y_mm) / 10.0f`, modelled over ℝ. -/
noncomputable def RD03D_Target.distanceR (t : RD03D_Target) : ℝ :=
  Real.sqrt ((t.x : ℝ) * (t.x : ℝ) + (t.y : ℝ) * (t.y : ℝ)) / 10

/-- Derived angle field of `RD03D::parseTarget`:
`atan2f(x_mm, y_mm) * 180.0f / PI`, modelled over ℝ. -/
noncomputable def RD03D_Target.angleR (t : RD03D_Target) : ℝ :=
  atan2R (t.x : ℝ) (t.y : ℝ) * 180 / Real.pi

/-- A concrete well-formed frame: header, one valid target (x = +30 mm,
y = +40 mm), two empty target slots, tail marker. -/
def validFrameEx : List Nat :=
  [0xAA, 0xFF, 0x03, 0x00,
   30, 128, 40, 128, 0, 0, 0, 0,
   0, 0, 0, 0, 0, 0, 0, 0,
   0, 0, 0, 0, 0, 0, 0, 0,
   0x55, 0xCC]

/-- Structural invariant of the parser: the 30-byte buffer keeps its length,
the header-match index stays at most 3 while seeking, and while collecting
the next write position is between 4 and 29 — so every `_frameBuf` store in
`processByte` (at `_syncIdx`, at index 0, or at `_frameIdx`) is in bounds. -/
def ParserInv (s : RD03D) : Prop :=
  s.frameBuf.length = 30 ∧
  (s.parserState = .syncHeader → s.syncIdx ≤ 3) ∧
  (s.parserState = .readData → 4 ≤ s.frameIdx ∧ s.frameIdx ≤ 29)

instance (s : RD03D) : Decidable (ParserInv s) :=
  inferInstanceAs (Decidable (s.frameBuf.length = 30 ∧
    (s.parserState = .syncHeader → s.syncIdx ≤ 3) ∧
    (s.parserState = .readData → 4 ≤ s.frameIdx ∧ s.frameIdx ≤ 29)))

/-! ### Helper lemmas -/

theorem u16le_lt (lo hi : Nat) : u16le lo hi < 65536 := by
  have h1 : lo % 256 < 65536 := lt_of_lt_of_le (Nat.mod_lt _ (by norm_num)) (by norm_num)
  have h2 : (hi % 256) <<< 8 < 65536 := by
    rw [Nat.shiftLeft_eq]
    have : hi % 256 < 256 := Nat.mod_lt _ (by norm_num)
    calc hi % 256 * 2 ^ 8 < 256 * 2 ^ 8 := by omega
      _ = 65536 := by norm_num
  rw [u16le]
  calc lo % 256 ||| (hi % 256) <<< 8 < 2 ^ 16 := by
        exact Nat.or_lt_two_pow (by omega) (by omega)
    _ = 65536 := by norm_num

theorem decodeSignMag_eq_testBit (raw : Nat) :
    decodeSignMag raw =
      if raw.testBit 15 then ((raw &&& 0x7FFF : Nat) : Int)
      else -((raw &&& 0x7FFF : Nat) : Int) := by
  have h : raw &&& 0x8000 = (raw.testBit 15).toNat * 2 ^ 15 := by
    have := Nat.and_two_pow raw 15
    norm_num at this ⊢
    exact this
  rw [decodeSignMag, h]
  cases hb : raw.testBit 15 <;> simp

theorem parserInv_processByte (now b : Nat) (s : RD03D) (h : ParserInv s) :
    ParserInv (RD03D.processByte now s b) := by
  obtain ⟨hl, hs, hr⟩ := h
  by_cases hp : s.parserState = .syncHeader
  · have hsi := hs hp
    unfold RD03D.processByte ParserInv
    simp only [hp]
    split_ifs <;>
      refine ⟨?_, ?_, ?_⟩ <;>
        simp [RD03D.resetParser, RD03D.processFrame, hl] <;> omega
  · have hps : s.parserState = .readData := by
      cases hq : s.parserState
      · exact absurd hq hp
      · rfl
    have hfi := hr hps
    unfold RD03D.processByte ParserInv
    simp only [hp, hps]
    split_ifs <;>
      refine ⟨?_, ?_, ?_⟩ <;>
        simp [RD03D.resetParser, RD03D.processFrame, hl] <;> omega

theorem parserInv_processBytes (now : Nat) (bs : List Nat) :
    ∀ s : RD03D, ParserInv s → ParserInv (RD03D.processBytes now s bs) := by
  induction bs with
  | nil => intro s h; exact h
  | cons b bs ih =>
    intro s h
    simp only [RD03D.processBytes, List.foldl_cons]
    exact ih _ (parserInv_processByte now b s h)

theorem collect_run (now : Nat) (bs : List Nat) :
    ∀ s : RD03D, s.parserState = .readData → s.frameIdx + bs.length ≤ 29 →
      (RD03D.processBytes now s bs).parserState = .readData ∧
      (RD03D.processBytes now s bs).frameIdx = s.frameIdx + bs.length ∧
      (RD03D.processBytes now s bs).callbackLog = s.callbackLog ∧
      (RD03D.processBytes now s bs).errorCount = s.errorCount ∧
      (RD03D.processBytes now s bs).frameCount = s.frameCount ∧
      (RD03D.processBytes now s bs).timeoutMs = s.timeoutMs ∧
      (RD03D.processBytes now s bs).lastByteTime =
        (if bs.isEmpty then s.lastByteTime else now % 4294967296) := by
  induction bs with
  | nil =>
    intro s h1 h2
    exact ⟨h1, by simp [RD03D.processBytes], rfl, rfl, rfl, rfl,
           by simp [RD03D.processBytes]⟩
  | cons b bs ih =>
    intro s h1 h2
    have hnot : ¬ 30 ≤ s.frameIdx + 1 := by
      simp only [List.length_cons] at h2; omega
    have hstep : RD03D.processByte now s b =
        { s with frameBuf := s.frameBuf.set s.frameIdx b
                 frameIdx := s.frameIdx + 1
                 lastByteTime := now % 4294967296 } := by
      simp [RD03D.processByte, h1, hnot]
    have := ih { s with frameBuf := s.frameBuf.set s.frameIdx b
                        frameIdx := s.frameIdx + 1
                        lastByteTime := now % 4294967296 }
      (by simp [h1]) (by simp only [List.length_cons] at h2; simp; omega)
    simp only [RD03D.processBytes, List.foldl_cons] at *
    rw [hstep]
    refine ⟨this.1, ?_, this.2.2.1, this.2.2.2.1, this.2.2.2.2.1, this.2.2.2.2.2.1, ?_⟩
    · rw [this.2.1]; simp; omega
    · rw [this.2.2.2.2.2.2]; simp

theorem frame_from_sync (now : Nat) (s : RD03D)
    (p0 p1 p2 p3 p4 p5 p6 p7 p8 p9 p10 p11 p12 p13 p14 p15 p16 p17 p18 p19 p20 p21 p22 p23 : Nat)
    (h1 : s.parserState = .syncHeader) (h2 : s.syncIdx ≤ 3) (h3 : s.frameBuf.length = 30) :
    (RD03D.processBytes now s
      ([0xAA, 0xFF, 0x03, 0x00] ++
       [p0, p1, p2, p3, p4, p5, p6, p7, p8, p9, p10, p11,
        p12, p13, p14, p15, p16, p17, p18, p19, p20, p21, p22, p23] ++
       [0x55, 0xCC])).targets =
      [parseTargetBytes p0 p1 p2 p3 p4 p5 p6 p7,
       parseTargetBytes p8 p9 p10 p11 p12 p13 p14 p15,
       parseTargetBytes p16 p17 p18 p19 p20 p21 p22 p23] ∧
    (RD03D.processBytes now s
      ([0xAA, 0xFF, 0x03, 0x00] ++
       [p0, p1, p2, p3, p4, p5, p6, p7, p8, p9, p10, p11,
        p12, p13, p14, p15, p16, p17, p18, p19, p20, p21, p22, p23] ++
       [0x55, 0xCC])).callbackLog =
      s.callbackLog ++
        [([parseTargetBytes p0 p1 p2 p3 p4 p5 p6 p7,
           parseTargetBytes p8 p9 p10 p11 p12 p13 p14 p15,
           parseTargetBytes p16 p17 p18 p19 p20 p21 p22 p23],
          getTargetCount
            [parseTargetBytes p0 p1 p2 p3 p4 p5 p6 p7,
             parseTargetBytes p8 p9 p10 p11 p12 p13 p14 p15,
             parseTargetBytes p16 p17 p18 p19 p20 p21 p22 p23])] := by
  have h4 : s.syncIdx = 0 ∨ s.syncIdx = 1 ∨ s.syncIdx = 2 ∨ s.syncIdx = 3 := by omega
  rcases h4 with h4 | h4 | h4 | h4 <;>
    simp [RD03D.processBytes, RD03D.processByte, RD03D.processFrame, RD03D.resetParser,
          parseTargetAt, FRAME_HEADER, h1, h4,
          List.getD_eq_getElem?_getD, List.getElem?_set, h3]

/-! ### Claims -/

/-- C1: from the initial parser state, feeding exactly header + three 8-byte
target blocks + tail marker produces exactly one callback invocation, whose
targets are the decode of the three blocks and whose count argument is the
number of valid targets (which is at most 3). -/
theorem C1_single_frame_callback (now
    p0 p1 p2 p3 p4 p5 p6 p7 p8 p9 p10 p11 p12 p13 p14 p15 p16 p17 p18 p19 p20 p21 p22 p23 : Nat) :
    (RD03D.processBytes now RD03D.init
      ([0xAA, 0xFF, 0x03, 0x00] ++
       [p0, p1, p2, p3, p4, p5, p6, p7, p8, p9, p10, p11,
        p12, p13, p14, p15, p16, p17, p18, p19, p20, p21, p22, p23] ++
       [0x55, 0xCC])).callbackLog =
      [([parseTargetBytes p0 p1 p2 p3 p4 p5 p6 p7,
         parseTargetBytes p8 p9 p10 p11 p12 p13 p14 p15,
         parseTargetBytes p16 p17 p18 p19 p20 p21 p22 p23],
        getTargetCount
          [parseTargetBytes p0 p1 p2 p3 p4 p5 p6 p7,
           parseTargetBytes p8 p9 p10 p11 p12 p13 p14 p15,
           parseTargetBytes p16 p17 p18 p19 p20 p21 p22 p23])] ∧
    (RD03D.processBytes now RD03D.init
      ([0xAA, 0xFF, 0x03, 0x00] ++
       [p0, p1, p2, p3, p4, p5, p6, p7, p8, p9, p10, p11,
        p12, p13, p14, p15, p16, p17, p18, p19, p20, p21, p22, p23] ++
       [0x55, 0xCC])).targets =
      [parseTargetBytes p0 p1 p2 p3 p4 p5 p6 p7,
       parseTargetBytes p8 p9 p10 p11 p12 p13 p14 p15,
       parseTargetBytes p16 p17 p18 p19 p20 p21 p22 p23] ∧
    getTargetCount
      [parseTargetBytes p0 p1 p2 p3 p4 p5 p6 p7,
       parseTargetBytes p8 p9 p10 p11 p12 p13 p14 p15,
       parseTargetBytes p16 p17 p18 p19 p20 p21 p22 p23] ≤ 3 := by
  obtain ⟨ht, hcb⟩ := frame_from_sync now RD03D.init
    p0 p1 p2 p3 p4 p5 p6 p7 p8 p9 p10 p11 p12 p13 p14 p15 p16 p17 p18 p19 p20 p21 p22 p23
    rfl (by decide) (by decide)
  refine ⟨?_, ht, ?_⟩
  · rw [hcb]; simp [RD03D.init]
  · have := List.countP_le_length (fun t : RD03D_Target => t.valid)
      (l := [parseTargetBytes p0 p1 p2 p3 p4 p5 p6 p7,
             parseTargetBytes p8 p9 p10 p11 p12 p13 p14 p15,
             parseTargetBytes p16 p17 p18 p19 p20 p21 p22 p23])
    simpa [getTargetCount] using this

/-- C2, counterexample: noise consisting of one stray copy of the 4 header
bytes followed by a complete valid frame yields zero callback invocations
(and one tail error), although the same frame alone from the initial state
yields exactly one invocation — so arbitrary preceding noise can prevent
decoding of the following valid frame. -/
theorem C2_noise_counterexample :
    (RD03D.processBytes 0 RD03D.init validFrameEx).callbackLog.length = 1 ∧
    (RD03D.processBytes 0 RD03D.init
        ([0xAA, 0xFF, 0x03, 0x00] ++ validFrameEx)).callbackLog = [] ∧
    (RD03D.processBytes 0 RD03D.init
        ([0xAA, 0xFF, 0x03, 0x00] ++ validFrameEx)).errorCount = 1 := by
  refine ⟨by decide, by decide, by decide⟩

/-- C2, amended: preceding noise cannot prevent decoding of the following
valid frame provided it leaves the parser in the header-seeking state; in
that case the frame produces exactly one further callback invocation with
the expected decode.  (Noise that embeds a header start can leave the parser
mid-frame, in which case the following frame may be consumed as payload, as
the counterexample shows.) -/
theorem C2_sync_recovery_amended (noise : List Nat) (now
    p0 p1 p2 p3 p4 p5 p6 p7 p8 p9 p10 p11 p12 p13 p14 p15 p16 p17 p18 p19 p20 p21 p22 p23 : Nat)
    (h : (RD03D.processBytes now RD03D.init noise).parserState = .syncHeader) :
    (RD03D.processBytes now RD03D.init
      (noise ++
       ([0xAA, 0xFF, 0x03, 0x00] ++
        [p0, p1, p2, p3, p4, p5, p6, p7, p8, p9, p10, p11,
         p12, p13, p14, p15, p16, p17, p18, p19, p20, p21, p22, p23] ++
        [0x55, 0xCC]))).callbackLog =
      (RD03D.processBytes now RD03D.init noise).callbackLog ++
        [([parseTargetBytes p0 p1 p2 p3 p4 p5 p6 p7,
           parseTargetBytes p8 p9 p10 p11 p12 p13 p14 p15,
           parseTargetBytes p16 p17 p18 p19 p20 p21 p22 p23],
          getTargetCount
            [parseTargetBytes p0 p1 p2 p3 p4 p5 p6 p7,
             parseTargetBytes p8 p9 p10 p11 p12 p13 p14 p15,
             parseTargetBytes p16 p17 p18 p19 p20 p21 p22 p23])] ∧
    (RD03D.processBytes now RD03D.init
      (noise ++
       ([0xAA, 0xFF, 0x03, 0x00] ++
        [p0, p1, p2, p3, p4, p5, p6, p7, p8, p9, p10, p11,
         p12, p13, p14, p15, p16, p17, p18, p19, p20, p21, p22, p23] ++
        [0x55, 0xCC]))).targets =
      [parseTargetBytes p0 p1 p2 p3 p4 p5 p6 p7,
       parseTargetBytes p8 p9 p10 p11 p12 p13 p14 p15,
       parseTargetBytes p16 p17 p18 p19 p20 p21 p22 p23] := by
  have hInv := parserInv_processBytes now noise RD03D.init (by decide)
  obtain ⟨hlen, hsync, _⟩ := hInv
  have hsplit : RD03D.processBytes now RD03D.init
      (noise ++
       ([0xAA, 0xFF, 0x03, 0x00] ++
        [p0, p1, p2, p3, p4, p5, p6, p7, p8, p9, p10, p11,
         p12, p13, p14, p15, p16, p17, p18, p19, p20, p21, p22, p23] ++
        [0x55, 0xCC])) =
      RD03D.processBytes now (RD03D.processBytes now RD03D.init noise)
        ([0xAA, 0xFF, 0x03, 0x00] ++
         [p0, p1, p2, p3, p4, p5, p6, p7, p8, p9, p10, p11,
          p12, p13, p14, p15, p16, p17, p18, p19, p20, p21, p22, p23] ++
         [0x55, 0xCC]) := by
    simp [RD03D.processBytes, List.foldl_append]
  obtain ⟨ht, hcb⟩ := frame_from_sync now (RD03D.processBytes now RD03D.init noise)
    p0 p1 p2 p3 p4 p5 p6 p7 p8 p9 p10 p11 p12 p13 p14 p15 p16 p17 p18 p19 p20 p21 p22 p23
    h (hsync h) hlen
  rw [hsplit]
  exact ⟨hcb, ht⟩

/-- C2 witness: the amended statement applied to empty noise and an
all-zero payload. -/
theorem C2_sync_recovery_witness :
    (RD03D.processBytes 0 RD03D.init
      ([] ++
       ([0xAA, 0xFF, 0x03, 0x00] ++
        [0, 0, 0, 0, 0, 0, 0, 0, 0, 0, 0, 0,
         0, 0, 0, 0, 0, 0, 0, 0, 0, 0, 0, 0] ++
        [0x55, 0xCC]))).targets =
      [parseTargetBytes 0 0 0 0 0 0 0 0,
       parseTargetBytes 0 0 0 0 0 0 0 0,
       parseTargetBytes 0 0 0 0 0 0 0 0] :=
  (C2_sync_recovery_amended [] 0
    0 0 0 0 0 0 0 0 0 0 0 0 0 0 0 0 0 0 0 0 0 0 0 0 (by decide)).2

/-- C3: for a valid target the decoded X (and speed) follow the
sign-and-magnitude law — magnitude `raw &&& 0x7FFF`, positive exactly when
bit 15 is set; in particular rawX `0x8010` gives +16 and rawX `0x0010`
gives −16. -/
theorem C3_x_speed_sign_magnitude (d0 d1 d2 d3 d4 d5 d6 d7 : Nat) :
    ((parseTargetBytes d0 d1 d2 d3 d4 d5 d6 d7).valid = true →
      (parseTargetBytes d0 d1 d2 d3 d4 d5 d6 d7).x =
        (if (u16le d0 d1).testBit 15 then ((u16le d0 d1 &&& 0x7FFF : Nat) : Int)
         else -((u16le d0 d1 &&& 0x7FFF : Nat) : Int)) ∧
      (parseTargetBytes d0 d1 d2 d3 d4 d5 d6 d7).speed =
        (if (u16le d4 d5).testBit 15 then ((u16le d4 d5 &&& 0x7FFF : Nat) : Int)
         else -((u16le d4 d5 &&& 0x7FFF : Nat) : Int))) ∧
    (parseTargetBytes 0x10 0x80 0 0 0 0 0 0).x = 16 ∧
    (parseTargetBytes 0x10 0x00 0 0 0 0 0 0).x = -16 := by
  refine ⟨fun hv => ?_, by decide, by decide⟩
  by_cases hc : u16le d0 d1 ≠ 0 ∨ u16le d2 d3 ≠ 0
  · exact ⟨by simp [parseTargetBytes, hc, ← decodeSignMag_eq_testBit],
           by simp [parseTargetBytes, hc, ← decodeSignMag_eq_testBit]⟩
  · exfalso
    simp [parseTargetBytes, hc, RD03D_Target.clear] at hv

/-- C3 witness: the sign-magnitude law applied to the concrete valid target
with raw X bytes `10 80` (rawX = 0x8010). -/
theorem C3_sign_magnitude_witness :
    (parseTargetBytes 0x10 0x80 0 0 0 0 0 0).x =
      (if (u16le 0x10 0x80).testBit 15 then ((u16le 0x10 0x80 &&& 0x7FFF : Nat) : Int)
       else -((u16le 0x10 0x80 &&& 0x7FFF : Nat) : Int)) :=
  ((C3_x_speed_sign_magnitude 0x10 0x80 0 0 0 0 0 0).1 (by decide)).1

/-- C4: for a valid target the decoded Y is the raw 16-bit value minus
`0x8000`, directly (and hence lies in the signed 16-bit range); in
particular rawY `0x8000`, `0x8005`, `0x7FFB` give 0, +5, −5. -/
theorem C4_y_offset_decode (d0 d1 d2 d3 d4 d5 d6 d7 : Nat) :
    ((parseTargetBytes d0 d1 d2 d3 d4 d5 d6 d7).valid = true →
      (parseTargetBytes d0 d1 d2 d3 d4 d5 d6 d7).y = (u16le d2 d3 : Int) - 0x8000 ∧
      -32768 ≤ (parseTargetBytes d0 d1 d2 d3 d4 d5 d6 d7).y ∧
      (parseTargetBytes d0 d1 d2 d3 d4 d5 d6 d7).y < 32768) ∧
    (parseTargetBytes 0 0 0x00 0x80 0 0 0 0).y = 0 ∧
    (parseTargetBytes 0 0 0x05 0x80 0 0 0 0).y = 5 ∧
    (parseTargetBytes 0 0 0xFB 0x7F 0 0 0 0).y = -5 := by
  refine ⟨fun hv => ?_, by decide, by decide, by decide⟩
  by_cases hc : u16le d0 d1 ≠ 0 ∨ u16le d2 d3 ≠ 0
  · have hlt := u16le_lt d2 d3
    refine ⟨by simp [parseTargetBytes, hc], ?_, ?_⟩ <;>
      simp [parseTargetBytes, hc] <;> omega
  · exfalso
    simp [parseTargetBytes, hc, RD03D_Target.clear] at hv

/-- C4 witness: the offset law applied to the concrete valid target with raw
Y bytes `05 80` (rawY = 0x8005). -/
theorem C4_y_offset_witness :
    (parseTargetBytes 0 0 0x05 0x80 0 0 0 0).y = (u16le 0x05 0x80 : Int) - 0x8000 :=
  ((C4_y_offset_decode 0 0 0x05 0x80 0 0 0 0).1 (by decide)).1

/-- C5: one sync-seeking step.  On a match the byte is stored at the current
match index and the index advances (entering collection with buffer position
4 when the header completes); on a mismatch equal to the header's first byte
the match restarts at index 1 with the byte stored at position 0; on any
other mismatch the index resets to 0 and the buffer is untouched. -/
theorem C5_sync_seek_step (now b : Nat) (s : RD03D)
    (h1 : s.parserState = .syncHeader) (h2 : s.syncIdx ≤ 3) :
    (b = FRAME_HEADER.getD s.syncIdx 0 →
      (RD03D.processByte now s b).frameBuf = s.frameBuf.set s.syncIdx b ∧
      (RD03D.processByte now s b).syncIdx = s.syncIdx + 1 ∧
      (s.syncIdx = 3 →
        (RD03D.processByte now s b).parserState = .readData ∧
        (RD03D.processByte now s b).frameIdx = 4) ∧
      (s.syncIdx < 3 →
        (RD03D.processByte now s b).parserState = .syncHeader ∧
        (RD03D.processByte now s b).frameIdx = s.frameIdx)) ∧
    (b ≠ FRAME_HEADER.getD s.syncIdx 0 → b = FRAME_HEADER.getD 0 0 →
      (RD03D.processByte now s b).syncIdx = 1 ∧
      (RD03D.processByte now s b).frameBuf = s.frameBuf.set 0 b ∧
      (RD03D.processByte now s b).parserState = .syncHeader) ∧
    (b ≠ FRAME_HEADER.getD s.syncIdx 0 → b ≠ FRAME_HEADER.getD 0 0 →
      (RD03D.processByte now s b).syncIdx = 0 ∧
      (RD03D.processByte now s b).frameBuf = s.frameBuf ∧
      (RD03D.processByte now s b).parserState = .syncHeader) := by
  have h4 : s.syncIdx = 0 ∨ s.syncIdx = 1 ∨ s.syncIdx = 2 ∨ s.syncIdx = 3 := by omega
  refine ⟨fun hm => ?_, fun hm hf => ?_, fun hm hf => ?_⟩ <;>
    rcases h4 with h4 | h4 | h4 | h4 <;>
      simp_all [RD03D.processByte, FRAME_HEADER, h1, h4]

/-- C5 witness: the match case at the initial state on the first header
byte. -/
theorem C5_sync_seek_witness :
    (RD03D.processByte 0 RD03D.init 0xAA).syncIdx = RD03D.init.syncIdx + 1 :=
  ((C5_sync_seek_step 0 0xAA RD03D.init rfl (by decide)).1 (by decide)).2.1

/-- C6: when the 30th byte arrives, the frame is decoded and dispatched iff
the final two buffer bytes equal `55 CC`; otherwise the error counter is
incremented exactly once with no decode and no callback; in both cases the
parser returns to sync-seeking. -/
theorem C6_tail_validation (now b : Nat) (s : RD03D)
    (h1 : s.parserState = .readData) (h2 : s.frameIdx = 29) :
    ((s.frameBuf.set 29 b).getD 28 0 = 0x55 ∧ (s.frameBuf.set 29 b).getD 29 0 = 0xCC →
      (RD03D.processByte now s b).frameCount = s.frameCount + 1 ∧
      (RD03D.processByte now s b).callbackLog = s.callbackLog ++
        [([parseTargetAt (s.frameBuf.set 29 b) 4, parseTargetAt (s.frameBuf.set 29 b) 12,
           parseTargetAt (s.frameBuf.set 29 b) 20],
          getTargetCount
            [parseTargetAt (s.frameBuf.set 29 b) 4, parseTargetAt (s.frameBuf.set 29 b) 12,
             parseTargetAt (s.frameBuf.set 29 b) 20])] ∧
      (RD03D.processByte now s b).errorCount = s.errorCount) ∧
    (¬ ((s.frameBuf.set 29 b).getD 28 0 = 0x55 ∧ (s.frameBuf.set 29 b).getD 29 0 = 0xCC) →
      (RD03D.processByte now s b).errorCount = s.errorCount + 1 ∧
      (RD03D.processByte now s b).callbackLog = s.callbackLog ∧
      (RD03D.processByte now s b).targets = s.targets ∧
      (RD03D.processByte now s b).frameCount = s.frameCount) ∧
    (RD03D.processByte now s b).parserState = .syncHeader := by
  have hns : s.parserState ≠ .syncHeader := by rw [h1]; intro hc; cases hc
  have hstep : RD03D.processByte now s b =
      RD03D.resetParser
        (if (s.frameBuf.set 29 b).getD 28 0 = 0x55 ∧ (s.frameBuf.set 29 b).getD 29 0 = 0xCC then
          RD03D.processFrame now
            { s with frameBuf := s.frameBuf.set 29 b, frameIdx := 30,
                     lastByteTime := now % 4294967296 }
        else
          { s with frameBuf := s.frameBuf.set 29 b, frameIdx := 30,
                   lastByteTime := now % 4294967296, errorCount := s.errorCount + 1 }) := by
    simp [RD03D.processByte, hns, h2]
  rw [hstep]
  by_cases hc : (s.frameBuf.set 29 b).getD 28 0 = 0x55 ∧ (s.frameBuf.set 29 b).getD 29 0 = 0xCC
  · rw [if_pos hc]
    refine ⟨fun _ => ?_, fun hn => absurd hc hn, ?_⟩ <;>
      simp [RD03D.processFrame, RD03D.resetParser]
  · rw [if_neg hc]
    refine ⟨fun hy => absurd hy hc, fun _ => ?_, ?_⟩ <;>
      simp [RD03D.resetParser]

/-- C6 witness: the mismatch case from a collecting state holding 29 bytes
of the initial all-zero buffer. -/
theorem C6_tail_validation_witness :
    (RD03D.processByte 0
      { RD03D.init with parserState := .readData, frameIdx := 29 } 0).parserState =
      .syncHeader :=
  (C6_tail_validation 0 0
    { RD03D.init with parserState := .readData, frameIdx := 29 } rfl rfl).2.2

/-- C7: a header followed by fewer than 26 payload bytes and then a
processing step later than the (default 100 ms) timeout yields exactly one
error-count increment, no callback, and a return to sync-seeking; before the
timeout step the parser was still mid-frame. -/
theorem C7_collection_timeout (t0 now2 : Nat) (bs : List Nat) (hbs : bs.length < 26)
    (h0 : t0 < 4294967296) (h1 : now2 < 4294967296) (h2 : t0 ≤ now2)
    (h3 : 100 < now2 - t0) :
    (RD03D.updateTimeoutCheck now2
        (RD03D.processBytes t0 RD03D.init ([0xAA, 0xFF, 0x03, 0x00] ++ bs))).errorCount = 1 ∧
    (RD03D.updateTimeoutCheck now2
        (RD03D.processBytes t0 RD03D.init ([0xAA, 0xFF, 0x03, 0x00] ++ bs))).callbackLog = [] ∧
    (RD03D.updateTimeoutCheck now2
        (RD03D.processBytes t0 RD03D.init
          ([0xAA, 0xFF, 0x03, 0x00] ++ bs))).parserState = .syncHeader ∧
    (RD03D.processBytes t0 RD03D.init
        ([0xAA, 0xFF, 0x03, 0x00] ++ bs)).parserState = .readData := by
  have hsplit : RD03D.processBytes t0 RD03D.init ([0xAA, 0xFF, 0x03, 0x00] ++ bs) =
      RD03D.processBytes t0 (RD03D.processBytes t0 RD03D.init [0xAA, 0xFF, 0x03, 0x00]) bs := by
    simp [RD03D.processBytes, List.foldl_append]
  have hp : (RD03D.processBytes t0 RD03D.init [0xAA, 0xFF, 0x03, 0x00]).parserState
      = .readData := by
    simp [RD03D.processBytes, RD03D.processByte, RD03D.init, FRAME_HEADER]
  have hf : (RD03D.processBytes t0 RD03D.init [0xAA, 0xFF, 0x03, 0x00]).frameIdx = 4 := by
    simp [RD03D.processBytes, RD03D.processByte, RD03D.init, FRAME_HEADER]
  have hlbt : (RD03D.processBytes t0 RD03D.init [0xAA, 0xFF, 0x03, 0x00]).lastByteTime
      = t0 % 4294967296 := by
    simp [RD03D.processBytes, RD03D.processByte, RD03D.init, FRAME_HEADER]
  have he : (RD03D.processBytes t0 RD03D.init [0xAA, 0xFF, 0x03, 0x00]).errorCount = 0 := by
    simp [RD03D.processBytes, RD03D.processByte, RD03D.init, FRAME_HEADER]
  have hcl : (RD03D.processBytes t0 RD03D.init [0xAA, 0xFF, 0x03, 0x00]).callbackLog = [] := by
    simp [RD03D.processBytes, RD03D.processByte, RD03D.init, FRAME_HEADER]
  have htm : (RD03D.processBytes t0 RD03D.init [0xAA, 0xFF, 0x03, 0x00]).timeoutMs = 100 := by
    simp [RD03D.processBytes, RD03D.processByte, RD03D.init, FRAME_HEADER]
  obtain ⟨cp, cf, ccl, cec, cfc, ctm, clbt⟩ :=
    collect_run t0 bs (RD03D.processBytes t0 RD03D.init [0xAA, 0xFF, 0x03, 0x00]) hp
      (by rw [hf]; omega)
  rw [hsplit]
  have hlbt2 : (RD03D.processBytes t0
      (RD03D.processBytes t0 RD03D.init [0xAA, 0xFF, 0x03, 0x00]) bs).lastByteTime
      = t0 % 4294967296 := by
    rw [clbt]; split_ifs <;> simp [hlbt]
  have harith : (100 : Nat) <
      (now2 % 4294967296 + 4294967296 - (t0 % 4294967296) % 4294967296) % 4294967296 := by
    rw [Nat.mod_eq_of_lt h0, Nat.mod_eq_of_lt h0, Nat.mod_eq_of_lt h1]
    have e3 : now2 + 4294967296 - t0 = 4294967296 + (now2 - t0) := by omega
    rw [e3, Nat.add_mod_left, Nat.mod_eq_of_lt (by omega)]
    exact h3
  have hcond : (RD03D.processBytes t0
        (RD03D.processBytes t0 RD03D.init [0xAA, 0xFF, 0x03, 0x00]) bs).parserState
        ≠ RD03D_ParserState.syncHeader ∧
      (RD03D.processBytes t0
        (RD03D.processBytes t0 RD03D.init [0xAA, 0xFF, 0x03, 0x00]) bs).timeoutMs <
        (now2 % 4294967296 + 4294967296 -
          (RD03D.processBytes t0
            (RD03D.processBytes t0 RD03D.init [0xAA, 0xFF, 0x03, 0x00]) bs).lastByteTime
            % 4294967296) % 4294967296 := by
    constructor
    · rw [cp]; intro hx; cases hx
    · rw [ctm, htm, hlbt2]; exact harith
  unfold RD03D.updateTimeoutCheck
  rw [if_pos hcond]
  refine ⟨?_, ?_, ?_, cp⟩
  · simp [RD03D.resetParser, cec, he]
  · simp [RD03D.resetParser, ccl, hcl]
  · simp [RD03D.resetParser]

/-- C7 witness: empty payload, bytes at time 0, timeout step at time 101. -/
theorem C7_collection_timeout_witness :
    (RD03D.updateTimeoutCheck 101
        (RD03D.processBytes 0 RD03D.init ([0xAA, 0xFF, 0x03, 0x00] ++ []))).errorCount = 1 :=
  (C7_collection_timeout 0 101 [] (by decide) (by decide) (by decide) (by decide)
    (by decide)).1

/-- C8: a decoded target is valid iff its raw X or raw Y field is nonzero;
when both are zero every field (including the derived real-valued distance
and angle) is zero/false regardless of the other raw fields. -/
theorem C8_target_validity (d0 d1 d2 d3 d4 d5 d6 d7 : Nat) :
    ((parseTargetBytes d0 d1 d2 d3 d4 d5 d6 d7).valid = true ↔
      (u16le d0 d1 ≠ 0 ∨ u16le d2 d3 ≠ 0)) ∧
    (u16le d0 d1 = 0 ∧ u16le d2 d3 = 0 →
      parseTargetBytes d0 d1 d2 d3 d4 d5 d6 d7 = RD03D_Target.clear ∧
      (parseTargetBytes d0 d1 d2 d3 d4 d5 d6 d7).distanceR = 0 ∧
      (parseTargetBytes d0 d1 d2 d3 d4 d5 d6 d7).angleR = 0) := by
  constructor
  · by_cases hc : u16le d0 d1 ≠ 0 ∨ u16le d2 d3 ≠ 0 <;>
      simp [parseTargetBytes, hc, RD03D_Target.clear]
  · intro hz
    have hc : ¬ (u16le d0 d1 ≠ 0 ∨ u16le d2 d3 ≠ 0) := by
      push_neg
      exact ⟨hz.1, hz.2⟩
    have hpt : parseTargetBytes d0 d1 d2 d3 d4 d5 d6 d7 = RD03D_Target.clear := by
      simp [parseTargetBytes, hc]
    refine ⟨hpt, ?_, ?_⟩ <;> rw [hpt]
    · simp [RD03D_Target.distanceR, RD03D_Target.clear]
    · simp [RD03D_Target.angleR, RD03D_Target.clear, atan2R]

/-- C8 witness: an all-zero position slot with nonzero speed/distance bytes
is cleared. -/
theorem C8_target_validity_witness :
    parseTargetBytes 0 0 0 0 7 7 7 7 = RD03D_Target.clear :=
  ((C8_target_validity 0 0 0 0 7 7 7 7).2 (by decide)).1

/-- C9: the derived distance is `sqrt(x² + y²) / 10` (cm) and the derived
angle is `atan2(x, y) · 180 / π` (degrees) for every target; in particular
the decoded target x = 30 mm, y = 40 mm has distance exactly 5 cm and angle
exactly `arctan (3/4) · 180 / π` (≈ 36.87°). -/
theorem C9_derived_distance_angle :
    (∀ t : RD03D_Target,
      t.distanceR = Real.sqrt ((t.x : ℝ) * (t.x : ℝ) + (t.y : ℝ) * (t.y : ℝ)) / 10 ∧
      t.angleR = atan2R (t.x : ℝ) (t.y : ℝ) * 180 / Real.pi) ∧
    (parseTargetBytes 30 128 40 128 0 0 0 0).x = 30 ∧
    (parseTargetBytes 30 128 40 128 0 0 0 0).y = 40 ∧
    (parseTargetBytes 30 128 40 128 0 0 0 0).valid = true ∧
    (parseTargetBytes 30 128 40 128 0 0 0 0).distanceR = 5 ∧
    (parseTargetBytes 30 128 40 128 0 0 0 0).angleR =
      Real.arctan (30 / 40) * 180 / Real.pi := by
  have hx : (parseTargetBytes 30 128 40 128 0 0 0 0).x = 30 := by decide
  have hy : (parseTargetBytes 30 128 40 128 0 0 0 0).y = 40 := by decide
  refine ⟨fun t => ⟨rfl, rfl⟩, hx, hy, by decide, ?_, ?_⟩
  · rw [RD03D_Target.distanceR, hx, hy]
    push_cast
    have h2500 : ((30 : ℝ) * 30 + 40 * 40) = 2500 := by norm_num
    rw [h2500, show (2500 : ℝ) = 50 ^ 2 by norm_num,
        Real.sqrt_sq (by norm_num : (0 : ℝ) ≤ 50)]
    norm_num
  · rw [RD03D_Target.angleR, hx, hy, atan2R]
    push_cast
    norm_num

/-- C10: buffer-safety invariant.  It holds initially, is preserved by every
`processByte` step and by `resetParser`, and therefore holds after any input
byte sequence — so the sync-phase store index is at most 3 and the
collection-phase store index is between 4 and 29, and every frame-buffer
write is in bounds. -/
theorem C10_buffer_index_invariant :
    ParserInv RD03D.init ∧
    (∀ (s : RD03D) (now b : Nat), ParserInv s → ParserInv (RD03D.processByte now s b)) ∧
    (∀ s : RD03D, ParserInv s → ParserInv (RD03D.resetParser s)) ∧
    (∀ (now : Nat) (bs : List Nat), ParserInv (RD03D.processBytes now RD03D.init bs)) := by
  refine ⟨by decide, fun s now b h => parserInv_processByte now b s h, ?_, ?_⟩
  · intro s h
    obtain ⟨hl, _, _⟩ := h
    exact ⟨by simpa [RD03D.resetParser] using hl, by simp [RD03D.resetParser],
           by simp [RD03D.resetParser]⟩
  · intro now bs
    exact parserInv_processBytes now bs RD03D.init (by decide)

/-- C10 witness: preservation applied at the initial state for one byte. -/
theorem C10_buffer_index_witness :
    ParserInv (RD03D.processByte 0 RD03D.init 0xAA) :=
  C10_buffer_index_invariant.2.1 RD03D.init 0 0xAA (by decide)
